import Mathlib

/-!
Verification development for the monocular navigation-assistance pipeline
(`modules/PriorityAnalyzer.py`, `modules/DepthSampler.py`,
`modules/DistanceCompensator.py`, `modules/SceneLocator.py`,
`modules/TrafficLightColor.py`).  Python floats are modelled as rationals
(`ℚ`) except where the source computes with `tan`/`sqrt`, which are modelled
over `ℝ`.  Python dicts with insertion order are modelled as association
lists.
-/

namespace CIS581

/-! ### Bounding boxes and IOU (`PriorityAnalyzer._calculate_iou`) -/
/-- A detection bounding box `(x, y, w, h)` in pixel coordinates. -/
structure BBox where
  x : ℚ
  y : ℚ
  w : ℚ
  h : ℚ
deriving DecidableEq, Repr

/-- Embedding of `PriorityAnalyzer._calculate_iou` (PriorityAnalyzer.py,
lines 63–87): intersection-over-union of two `(x, y, w, h)` boxes, with the
explicit `union_area == 0` guard returning `0`. -/
def calculate_iou (bbox1 bbox2 : BBox) : ℚ :=
  let x2_1 := bbox1.x + bbox1.w
  let y2_1 := bbox1.y + bbox1.h
  let x2_2 := bbox2.x + bbox2.w
  let y2_2 := bbox2.y + bbox2.h
  let xi1 := max bbox1.x bbox2.x
  let yi1 := max bbox1.y bbox2.y
  let xi2 := min x2_1 x2_2
  let yi2 := min y2_1 y2_2
  let inter_area := max 0 (xi2 - xi1) * max 0 (yi2 - yi1)
  let union_area := bbox1.w * bbox1.h + bbox2.w * bbox2.h - inter_area
  if union_area = 0 then 0 else inter_area / union_area

/-- The intersection area exactly as the source computes it. -/
def interArea (bbox1 bbox2 : BBox) : ℚ :=
  max 0 (min (bbox1.x + bbox1.w) (bbox2.x + bbox2.w) - max bbox1.x bbox2.x) *
    max 0 (min (bbox1.y + bbox1.h) (bbox2.y + bbox2.h) - max bbox1.y bbox2.y)

/-- The union area exactly as the source computes it. -/
def unionArea (bbox1 bbox2 : BBox) : ℚ :=
  bbox1.w * bbox1.h + bbox2.w * bbox2.h - interArea bbox1 bbox2

/-- Two boxes are separated when they do not overlap on some axis. -/
def Separated (bbox1 bbox2 : BBox) : Prop :=
  bbox1.x + bbox1.w ≤ bbox2.x ∨ bbox2.x + bbox2.w ≤ bbox1.x ∨
    bbox1.y + bbox1.h ≤ bbox2.y ∨ bbox2.y + bbox2.h ≤ bbox1.y

/-! ### Depth sampling (`DepthSampler.get_stable_depth`) -/
/-- A relative-depth field: a `rows × cols` grid of depth scalars, indexed
`val row col` like the source's `monocular_depth_val[y, x]`. -/
structure Depthmap where
  rows : ℕ
  cols : ℕ
  val : ℕ → ℕ → ℚ

/-- An integer bounding box `(x, y, w, h)` as handed to the sampler. -/
structure IBox where
  x : ℤ
  y : ℤ
  w : ℤ
  h : ℤ
deriving DecidableEq, Repr

/-- `px = max(0, min(px, bound - 1))`: clamp an index into `[0, bound)`. -/
def clampIdx (p bound : ℤ) : ℤ := max 0 (min p (bound - 1))

/-- The bbox normalization at the top of `get_stable_depth`
(DepthSampler.py, lines 24–29). -/
def clampBox (dm : Depthmap) (bbox : IBox) : IBox :=
  let x := max 0 (min bbox.x ((dm.cols : ℤ) - 1))
  let y := max 0 (min bbox.y ((dm.rows : ℤ) - 1))
  let w := max 1 (min bbox.w ((dm.cols : ℤ) - x))
  let h := max 1 (min bbox.h ((dm.rows : ℤ) - y))
  ⟨x, y, w, h⟩

/-- The relative offsets `[0.25, 0.5, 0.75]` of the 3×3 grid. -/
def gridOffsets : List ℚ := [1 / 4, 1 / 2, 3 / 4]

/-- The nine grid sample points (DepthSampler.py, lines 39–46): for each
offset pair, `px = int(x + w * i)` (float truncation, a floor here because
the clamped box has nonnegative coordinates) clamped into the field. -/
def gridPoints (dm : Depthmap) (bbox : IBox) : List (ℤ × ℤ) :=
  let c := clampBox dm bbox
  gridOffsets.flatMap fun i =>
    gridOffsets.map fun j =>
      (clampIdx ⌊(c.x : ℚ) + (c.w : ℚ) * i⌋ (dm.cols : ℤ),
        clampIdx ⌊(c.y : ℚ) + (c.h : ℚ) * j⌋ (dm.rows : ℤ))

/-- `depths = [monocular_depth_val[p[1], p[0]] for p in sample_points]`. -/
def gridDepths (dm : Depthmap) (bbox : IBox) : List ℚ :=
  (gridPoints dm bbox).map fun p => dm.val p.2.toNat p.1.toNat

/-- The outlier trim (DepthSampler.py, lines 51–56): drop two values from
each end when at least five samples exist, one from each end when at least
three exist, nothing otherwise. -/
def pyTrim (l : List ℚ) : List ℚ :=
  if 5 ≤ l.length then ((l.drop 2).dropLast).dropLast
  else if 3 ≤ l.length then (l.drop 1).dropLast
  else l

/-- `np.mean`: sum over length. -/
def listMean (l : List ℚ) : ℚ := l.sum / l.length

/-- `np.median`: midpoint of the two central elements of the sorted list
(they coincide for odd length). -/
def listMedian (l : List ℚ) : ℚ :=
  let s := List.insertionSort (· ≤ ·) l
  ((s.getD ((l.length - 1) / 2) 0) + s.getD (l.length / 2) 0) / 2

/-- The `"center"` branch: single sample at `(x + w // 2, y + h // 2)`. -/
def centerDepth (dm : Depthmap) (bbox : IBox) : ℚ :=
  let c := clampBox dm bbox
  dm.val (c.y + Int.ediv c.h 2).toNat (c.x + Int.ediv c.w 2).toNat

/-- The `"grid"` branch: sort the nine samples, trim, and average. -/
def gridDepth (dm : Depthmap) (bbox : IBox) : ℚ :=
  listMean (pyTrim (List.insertionSort (· ≤ ·) (gridDepths dm bbox)))

/-- The `"edges"` branch: five edge-center samples, clamped, median. -/
def edgesDepth (dm : Depthmap) (bbox : IBox) : ℚ :=
  let c := clampBox dm bbox
  let pts : List (ℤ × ℤ) :=
    [(c.x + Int.ediv c.w 2, c.y), (c.x + Int.ediv c.w 2, c.y + c.h),
      (c.x, c.y + Int.ediv c.h 2), (c.x + c.w, c.y + Int.ediv c.h 2),
      (c.x + Int.ediv c.w 2, c.y + Int.ediv c.h 2)]
  listMedian (pts.map fun p =>
    dm.val (clampIdx p.2 (dm.rows : ℤ)).toNat (clampIdx p.1 (dm.cols : ℤ)).toNat)

/-- Embedding of `DepthSampler.get_stable_depth` (DepthSampler.py, lines
6–90).  The unknown-strategy `ValueError` is modelled as `Except.error`;
the `"adaptive"` branch dispatches on the clamped box area exactly as the
source's recursive calls do. -/
def get_stable_depth (dm : Depthmap) (bbox : IBox) (sampling_strategy : String) :
    Except String ℚ :=
  if sampling_strategy = "center" then .ok (centerDepth dm bbox)
  else if sampling_strategy = "grid" then .ok (gridDepth dm bbox)
  else if sampling_strategy = "edges" then .ok (edgesDepth dm bbox)
  else if sampling_strategy = "adaptive" then
    let c := clampBox dm bbox
    if c.w * c.h < 1000 then .ok (centerDepth dm bbox)
    else if c.w * c.h < 10000 then .ok (edgesDepth dm bbox)
    else .ok (gridDepth dm bbox)
  else .error ("Unknown sampling strategy: " ++ sampling_strategy)

/-- The synthetic 8×8 depth field used for the concrete grid test: the
3×3 grid of a `(0,0,4,4)` box lands on `(px, py) ∈ {1,2,3}²`, where the
values are the middle block `{10,…,14}` plus two extreme outliers on each
side (`0, 1` below and `1000, 2000` above). -/
def outlierField : Depthmap :=
  ⟨8, 8, fun py px =>
    match px, py with
    | 1, 1 => 0
    | 1, 2 => 1000
    | 1, 3 => 10
    | 2, 1 => 11
    | 2, 2 => 12
    | 2, 3 => 13
    | 3, 1 => 14
    | 3, 2 => 2000
    | 3, 3 => 1
    | _, _ => 0⟩

/-! ### Ratio-proportion metric scaling (`LensOpticCalculator.RatioProportionCalculator`) -/
/-- Modelled from the spec: `RatioProportionCalculator` is defined in
`modules/LensOpticCalculator.py`, which is not among the sources here (only
its callers in `SceneLocator.py` are).  The spec defines it as the
ratio-proportion `distance_mm = reference_distance_mm *
reference_depth_value / raw_depth`, undefined (to be guarded by the caller)
when `raw_depth == 0`; the undefined case is modelled as `none`. -/
def RatioProportionCalculator
    (raw_depth reference_distance_mm reference_depth_value : ℚ) : Option ℚ :=
  if raw_depth = 0 then none
  else some (reference_distance_mm * reference_depth_value / raw_depth)

/-! ### Slant-to-horizontal compensation (`DistanceCompensator`) -/

/-- `np.radians`: degrees to radians. -/
noncomputable def radiansOf (d : ℝ) : ℝ := d * Real.pi / 180

/-- `np.clip(x, lo, hi)`. -/
noncomputable def npClip (x lo hi : ℝ) : ℝ := min (max x lo) hi

/-- The camera parameters of `DistanceCompensator.__init__`: image height
(pixels), camera height (mm) and vertical field of view (radians). -/
structure CameraSetup where
  image_height : ℝ
  camera_height : ℝ
  fov_v : ℝ

/-- `angle_per_pixel = fov_v / image_height`. -/
noncomputable def CameraSetup.angle_per_pixel (c : CameraSetup) : ℝ :=
  c.fov_v / c.image_height

/-- Embedding of `DistanceCompensator.pixel_to_pitch_angle`
(DistanceCompensator.py, lines 60–80). -/
noncomputable def pixel_to_pitch_angle (c : CameraSetup) (y_pixel : ℝ) : ℝ :=
  (c.image_height / 2 - y_pixel) * c.angle_per_pixel

/-- The `OBJECT_HEIGHTS` table (mm), DistanceCompensator.py lines 12–22. -/
noncomputable def OBJECT_HEIGHTS : List (String × ℝ) :=
  [("traffic light", 5000), ("street sign", 4000), ("stop sign", 2500),
    ("person", 1700), ("car", 1500), ("truck", 3000), ("bus", 3500),
    ("bicycle", 1100), ("motorcycle", 1200)]

/-- Python's `str.lower`, modelled on the underlying character list
(`String.toLower` itself does not reduce in the kernel). -/
def pyLower (s : String) : String := String.mk (s.data.map Char.toLower)

/-- Embedding of `DistanceCompensator.get_object_height`: dictionary
lookup on the lower-cased label, defaulting to the camera height. -/
noncomputable def get_object_height (c : CameraSetup) (object_type : String) : ℝ :=
  (OBJECT_HEIGHTS.lookup (pyLower object_type)).getD c.camera_height

/-- Embedding of `DistanceCompensator.compensate_distance`
(DistanceCompensator.py, lines 97–165). -/
noncomputable def compensate_distance
    (c : CameraSetup) (slant_distance y_pixel : ℝ) (object_type : String) : ℝ :=
  let object_height := get_object_height c object_type
  let height_diff := object_height - c.camera_height
  let pitch := pixel_to_pitch_angle c y_pixel
  if |pitch| < radiansOf 3 then slant_distance
  else if |height_diff| < 500 then slant_distance
  else
    let horizontal_distance_geometric :=
      if radiansOf 5 < |pitch| then
        npClip |height_diff / Real.tan pitch| (slant_distance * 0.5) (slant_distance * 2.0)
      else slant_distance
    let horizontal_distance_vector :=
      Real.sqrt (max 0 (slant_distance ^ 2 - height_diff ^ 2))
    let angle_weight := min 1 (|pitch| / radiansOf 30)
    angle_weight * horizontal_distance_geometric +
      (1 - angle_weight) * horizontal_distance_vector

/-! ### Priority analyzer (`PriorityAnalyzer`)

The analyzer state and per-frame `analyze` step.  Python dicts keyed by
identity strings (`f"{label}_{x}_{y}_{frame}"`) are modelled as insertion-
ordered association lists keyed by the id's components. -/
/-- A membership test for `sub in hay` on character lists (Python's `in`
operator for strings): some suffix of `hay` starts with `sub`. -/
def startsWithChars : List Char → List Char → Bool
  | _, [] => true
  | [], _ :: _ => false
  | a :: as, b :: bs => a = b && startsWithChars as bs

/-- Python's substring test `sub in hay`. -/
def hasSubChars : List Char → List Char → Bool
  | [], sub => sub.isEmpty
  | a :: t, sub => startsWithChars (a :: t) sub || hasSubChars t sub

/-- `sub in hay` on strings. -/
def strHasSub (hay sub : String) : Bool := hasSubChars hay.data sub.data

/-- A detection dict as produced by `SceneLocator.FindObjects`: label,
metric distance (m), raw sampled depth, bbox, and the optional color
enrichment. -/
structure Det where
  label : String
  distance_m : ℚ
  midas_depth : ℚ
  bbox : IBox
  color : Option String := none
  color_breakdown : List (String × ℚ) := []
deriving DecidableEq

/-- The discrete traffic-light state strings of `_check_traffic_lights`. -/
inductive TLState where
  | red
  | green
  | stop
  | unknown
deriving DecidableEq, Repr

/-- Components of a tracked-table identity string
`f"{label}_{bbox[0]}_{bbox[1]}_{frame_counter}"`. -/
structure ObjId where
  label : String
  x : ℤ
  y : ℤ
  frame : ℕ
deriving DecidableEq

/-- A tracked-table value `(bbox, distance, frame_count)`. -/
structure TrackedObj where
  bbox : IBox
  distance : ℚ
  frame : ℕ
deriving DecidableEq

/-- The position bands returned by `_get_position_text`. -/
inductive PositionText where
  | left
  | center
  | right
deriving DecidableEq, Repr

/-- An emitted alert (the human-readable message is determined by the
fields kept here). -/
structure Alert where
  priority : ℕ
  atype : String
  state : Option TLState := none
  distance_m : ℚ
  midas_depth_mm : ℚ
  label : Option String := none
  position : Option PositionText := none
deriving DecidableEq

/-- The mutable state of a `PriorityAnalyzer` instance. -/
structure AnalyzerState where
  last_traffic_light_state : Option TLState := none
  last_traffic_light_distance : Option ℚ := none
  last_reported_cars : List (ObjId × TrackedObj) := []
  last_reported_persons : List (ObjId × TrackedObj) := []
  frame_counter : ℕ := 0
deriving DecidableEq

/-- `IBox` cast into the rational box arithmetic of `_calculate_iou`. -/
def IBox.toQ (b : IBox) : BBox := ⟨(b.x : ℚ), (b.y : ℚ), (b.w : ℚ), (b.h : ℚ)⟩

/-- Embedding of `_get_position_text` (PriorityAnalyzer.py, lines 89–103):
divide the frame width into three equal bands by bbox center-x. -/
def get_position_text (bbox : IBox) (img_width : ℚ) : PositionText :=
  let center_x := (bbox.x : ℚ) + (bbox.w : ℚ) / 2
  if center_x < img_width / 3 then .left
  else if center_x > 2 * img_width / 3 then .right
  else .center

/-- The traffic-light keyword vocabulary (PriorityAnalyzer.py, lines
113–114). -/
def traffic_light_keywords : List String :=
  ["r_signal", "g_signal", "traffic light", "r_light", "g_light",
    "traffic_light", "trafficlight", "stop sign", "traffic signal"]

/-- A label passes the traffic-light filter when its lower-cased text
contains any keyword. -/
def isTrafficLightLabel (label : String) : Bool :=
  traffic_light_keywords.any fun k => strHasSub (pyLower label) k

/-- The color enrichment at the top of `_check_traffic_lights` (lines
122–130): when no `color_breakdown` is attached and a frame is available,
the classifier (modelled as an oracle `IBox → String` returning the
dominant color) fills in the `color` field. -/
def tlEnrich (frameClassify : Option (IBox → String)) (d : Det) : Det :=
  if d.color_breakdown.isEmpty then
    match frameClassify with
    | some f => { d with color := some (f d.bbox) }
    | none => d
  else d

/-- `min(traffic_lights, key=lambda x: x['distance_m'])`: Python `min`
keeps the earliest element on ties. -/
def minByDistance : Det → List Det → Det
  | best, [] => best
  | best, d :: t => minByDistance (if d.distance_m < best.distance_m then d else best) t

/-- The state derivation of `_check_traffic_lights` (lines 150–166) from
the lower-cased label and the color hint. -/
def deriveTLState (label : String) (hint : Option String) : TLState :=
  if strHasSub label "r_signal" || strHasSub label "r_light" ||
      strHasSub label "red" || hint = some "red" then .red
  else if strHasSub label "g_signal" || strHasSub label "g_light" ||
      strHasSub label "green" || hint = some "green" then .green
  else if strHasSub label "stop sign" then .stop
  else .unknown

/-- Embedding of `_check_traffic_lights` (PriorityAnalyzer.py, lines
105–213): returns the optional priority-1 alert and the updated state. -/
def check_traffic_lights (frameClassify : Option (IBox → String))
    (st : AnalyzerState) (detections : List Det) : Option Alert × AnalyzerState :=
  let traffic_lights :=
    (detections.filter fun d => isTrafficLightLabel d.label).map (tlEnrich frameClassify)
  match traffic_lights with
  | [] =>
    (none, { st with last_traffic_light_state := none, last_traffic_light_distance := none })
  | d :: rest =>
    let nearest_light := minByDistance d rest
    let distance := nearest_light.distance_m
    let current_state := deriveTLState (pyLower nearest_light.label) nearest_light.color
    let should_report :=
      if some current_state ≠ st.last_traffic_light_state then true
      else if distance < 3 then
        match st.last_traffic_light_distance with
        | none => true
        | some last => decide (|distance - last| > 1 / 2)
      else false
    let st' := { st with
      last_traffic_light_state := some current_state
      last_traffic_light_distance := some distance }
    if should_report then
      (some { priority := 1, atype := "traffic_light", state := some current_state,
              distance_m := distance, midas_depth_mm := nearest_light.midas_depth }, st')
    else (none, st')

/-- The vehicle label vocabulary of `_check_cars` (line 220). -/
def vehicle_labels : List String := ["car", "truck", "bus", "motorbike", "bicycle", "vehicle"]

/-- The tracked-table scan of `_check_cars`/`_check_persons` (lines
242–271): the FIRST entry, in insertion order, whose IOU with the
detection exceeds the threshold `0.3`. -/
def findMatch (bbox : IBox) : List (ObjId × TrackedObj) → Option (ObjId × TrackedObj)
  | [] => none
  | (tid, tr) :: t =>
    if calculate_iou bbox.toQ tr.bbox.toQ > 3 / 10 then some (tid, tr) else findMatch bbox t

/-- Python dict assignment `current[id] = v` on an insertion-ordered
association list. -/
def upsert (k : ObjId) (v : TrackedObj) : List (ObjId × TrackedObj) → List (ObjId × TrackedObj)
  | [] => [(k, v)]
  | (k', v') :: t => if k' = k then (k, v) :: t else (k', v') :: upsert k v t

/-- The shared per-detection loop body of `_check_cars` and
`_check_persons` (lines 233–295 and 316–375): `idLabel` is the label used
to build a fresh identity (`car['label']` for vehicles, the literal
`"person"` for pedestrians), `prio`/`atype` distinguish the two alert
kinds. -/
def trackLoop (prio : ℕ) (atype : String) (idLabel : Det → String)
    (img_width : ℚ) (fc : ℕ) (tracked : List (ObjId × TrackedObj)) :
    List Det → List (ObjId × TrackedObj) → List Alert × List (ObjId × TrackedObj)
  | [], current => ([], current)
  | d :: rest, current =>
    match findMatch d.bbox tracked with
    | some (matched_id, tr) =>
      let current' := upsert matched_id ⟨d.bbox, d.distance_m, fc⟩ current
      let next := trackLoop prio atype idLabel img_width fc tracked rest current'
      if |d.distance_m - tr.distance| > 1 / 2 then
        ({ priority := prio, atype := atype, distance_m := d.distance_m,
           midas_depth_mm := d.midas_depth, label := some d.label,
           position := some (get_position_text d.bbox img_width) } :: next.1, next.2)
      else next
    | none =>
      let new_id : ObjId := ⟨idLabel d, d.bbox.x, d.bbox.y, fc⟩
      let current' := upsert new_id ⟨d.bbox, d.distance_m, fc⟩ current
      let next := trackLoop prio atype idLabel img_width fc tracked rest current'
      ({ priority := prio, atype := atype, distance_m := d.distance_m,
         midas_depth_mm := d.midas_depth, label := some d.label,
         position := some (get_position_text d.bbox img_width) } :: next.1, next.2)

/-- Embedding of `_check_cars` (PriorityAnalyzer.py, lines 215–298): the
tracked-vehicle table is REPLACED by the objects seen this frame. -/
def check_cars (st : AnalyzerState) (detections : List Det) (img_width : ℚ) :
    List Alert × AnalyzerState :=
  let close_cars := detections.filter fun d =>
    vehicle_labels.contains (pyLower d.label) && decide (d.distance_m < 3)
  let r := trackLoop 2 "vehicle" Det.label img_width st.frame_counter
    st.last_reported_cars close_cars []
  (r.1, { st with last_reported_cars := r.2 })

/-- Embedding of `_check_persons` (PriorityAnalyzer.py, lines 300–378). -/
def check_persons (st : AnalyzerState) (detections : List Det) (img_width : ℚ) :
    List Alert × AnalyzerState :=
  let close_persons := detections.filter fun d =>
    pyLower d.label = "person" && decide (d.distance_m < 3)
  let r := trackLoop 3 "person" (fun _ => "person") img_width st.frame_counter
    st.last_reported_persons close_persons []
  (r.1, { st with last_reported_persons := r.2 })

/-- Embedding of `_cleanup_expired_objects` (PriorityAnalyzer.py, lines
380–400): evict entries with `frame_counter - frame > 720`. -/
def cleanup_expired_objects (st : AnalyzerState) : AnalyzerState :=
  { st with
    last_reported_cars := st.last_reported_cars.filter fun p =>
      decide ((st.frame_counter : ℤ) - (p.2.frame : ℤ) ≤ 720)
    last_reported_persons := st.last_reported_persons.filter fun p =>
      decide ((st.frame_counter : ℤ) - (p.2.frame : ℤ) ≤ 720) }

/-- `object_timeout_frames` (PriorityAnalyzer.py, line 22). -/
def object_timeout_frames : ℕ := 720

/-- Embedding of `PriorityAnalyzer.analyze` (PriorityAnalyzer.py, lines
24–61): bump the frame counter, run the three sub-logics in priority
order, clean up, and return the concatenated alerts. -/
def analyze (frameClassify : Option (IBox → String)) (st : AnalyzerState)
    (detections_summary : List Det) (img_width : ℚ) : List Alert × AnalyzerState :=
  let st1 := { st with frame_counter := st.frame_counter + 1 }
  let tl := check_traffic_lights frameClassify st1 detections_summary
  let cars := check_cars tl.2 detections_summary img_width
  let persons := check_persons cars.2 detections_summary img_width
  let st5 := cleanup_expired_objects persons.2
  (tl.1.toList ++ cars.1 ++ persons.1, st5)

/-- A red-signal detection as used by the hysteresis scenario. -/
def rSignalDet (dist : ℚ) : Det :=
  { label := "R_Signal", distance_m := dist, midas_depth := 500, bbox := ⟨0, 0, 5, 10⟩ }

/-- A green-signal detection as used by the hysteresis scenario. -/
def gSignalDet (dist : ℚ) : Det :=
  { label := "G_Signal", distance_m := dist, midas_depth := 500, bbox := ⟨0, 0, 5, 10⟩ }

/-- The pedestrian detection of the tracking scenario: a `50×100` bbox at
`(100, 100)`. -/
def personDet (dist : ℚ) : Det :=
  { label := "person", distance_m := dist, midas_depth := 300, bbox := ⟨100, 100, 50, 100⟩ }

/-- Runs `analyze` over successive frames of detections (fixed 640-pixel
width, no frame image), collecting each frame's alerts. -/
def analyzeSeq : AnalyzerState → List (List Det) → List (List Alert) × AnalyzerState
  | st, [] => ([], st)
  | st, f :: rest =>
    let r := analyze none st f 640
    let next := analyzeSeq r.2 rest
    (r.1 :: next.1, next.2)

/-! ### Traffic-light color classification (`TrafficLightColor`)

The RGB→HSV conversion (`cv2.cvtColor`) is an external library call; the
image is therefore modelled as a grid of already-converted HSV triples,
and the fixed-threshold masks of `classify_light_color` are applied to
those triples. -/
/-- An image of `rows × cols` HSV pixels, accessed `pix row col`.  The
pixel function is total; the in-bounds theorems show `classify_light_color`
only ever reads coordinates inside `[0, cols) × [0, rows)`. -/
structure HSVImage where
  rows : ℕ
  cols : ℕ
  pix : ℤ → ℤ → ℕ × ℕ × ℕ

/-- Embedding of `_safe_crop` (TrafficLightColor.py, lines 7–17): clamp
the bbox to the image and return `none` for an empty or fully
out-of-bounds crop. -/
def safe_crop (img : HSVImage) (bbox : IBox) : Option (ℤ × ℤ × ℤ × ℤ) :=
  let x1 := max 0 bbox.x
  let y1 := max 0 bbox.y
  let x2 := min (img.cols : ℤ) (bbox.x + bbox.w)
  let y2 := min (img.rows : ℤ) (bbox.y + bbox.h)
  if x1 ≥ x2 ∨ y1 ≥ y2 then none else some (x1, y1, x2, y2)

/-- The pixel coordinates `(px, py)` of the crop rectangle
`[x1, x2) × [y1, y2)`. -/
def cropCoords (x1 y1 x2 y2 : ℤ) : List (ℤ × ℤ) :=
  (List.range (y2 - y1).toNat).flatMap fun (r : ℕ) =>
    (List.range (x2 - x1).toNat).map fun (c : ℕ) => (x1 + (c : ℤ), y1 + (r : ℤ))

/-- `cv2.inRange` on one HSV triple: all three channels inside the
inclusive bounds. -/
def inRangeHSV (lo hi p : ℕ × ℕ × ℕ) : Bool :=
  decide (lo.1 ≤ p.1 ∧ p.1 ≤ hi.1) && decide (lo.2.1 ≤ p.2.1 ∧ p.2.1 ≤ hi.2.1) &&
    decide (lo.2.2 ≤ p.2.2 ∧ p.2.2 ≤ hi.2.2)

/-- The red mask (two hue wrap-around ranges, lines 38–40). -/
def redMask (p : ℕ × ℕ × ℕ) : Bool :=
  inRangeHSV (0, 60, 40) (20, 255, 255) p || inRangeHSV (160, 60, 40) (180, 255, 255) p

/-- The green mask: line 43 overwrites line 42, so the effective range is
`(35, 40, 40)–(100, 255, 255)`. -/
def greenMask (p : ℕ × ℕ × ℕ) : Bool :=
  inRangeHSV (35, 40, 40) (100, 255, 255) p

/-- The white mask (line 45). -/
def whiteMask (p : ℕ × ℕ × ℕ) : Bool :=
  inRangeHSV (0, 0, 180) (180, 60, 255) p

/-- `cv2.countNonZero` over the crop: pixels of the crop whose HSV triple
passes the mask. -/
def maskCount (img : HSVImage) (coords : List (ℤ × ℤ)) (mask : ℕ × ℕ × ℕ → Bool) : ℕ :=
  (coords.filter fun c => mask (img.pix c.2 c.1)).length

/-- Python `max(items, key=lambda kv: kv[1])[0]` over the percentages
dict (insertion order `red, green, white`; ties keep the earliest), with
the `if percentages else "unknown"` guard of line 54. -/
def pyMaxSnd : List (String × ℚ) → String
  | [] => "unknown"
  | x :: t => (t.foldl (fun best y => if y.2 > best.2 then y else best) x).1

/-- Embedding of `classify_light_color` (TrafficLightColor.py, lines
20–60): returns the dominant color and the percentage breakdown. -/
def classify_light_color (img : HSVImage) (bbox : IBox) : String × List (String × ℚ) :=
  match safe_crop img bbox with
  | none => ("unknown", [])
  | some (x1, y1, x2, y2) =>
    let coords := cropCoords x1 y1 x2 y2
    let total_pixels : ℚ := (((y2 - y1).toNat * (x2 - x1).toNat : ℕ) : ℚ)
    if total_pixels = 0 then ("unknown", [])
    else
      let percentages : List (String × ℚ) :=
        [("red", (maskCount img coords redMask : ℚ) / total_pixels * 100),
          ("green", (maskCount img coords greenMask : ℚ) / total_pixels * 100),
          ("white", (maskCount img coords whiteMask : ℚ) / total_pixels * 100)]
      let dominant := pyMaxSnd percentages
      let dominant' := if (percentages.lookup dominant).getD 0 < 5 then "unknown" else dominant
      (dominant', percentages)

/-! ### Object enrichment (`SceneLocator.FindObjects`)

The YOLO detector, the depth estimator, and the drawing calls are external
collaborators; a detector box is modelled with integer pixel corners (the
source truncates the float corners with `int(...)`).  `LimitVal`,
`RatioProportionCalculator` and `SafetyLevel` live in the missing
`modules/LensOpticCalculator.py`; the first two are modelled from the
spec, and the safety classifier (whose thresholds the spec leaves as
opaque configuration) is passed in as a function parameter. -/
/-- A detector output box: confidence, class id, and `xyxy` corners. -/
structure YoloBox where
  conf : ℚ
  cls : ℕ
  x1 : ℤ
  y1 : ℤ
  x2 : ℤ
  y2 : ℤ
deriving DecidableEq

/-- A summary dict produced by `FindObjects`: `distance_m` is `none` when
the metric distance is unavailable. -/
structure SDet where
  label : String
  distance_m : Option ℚ
  midas_depth : ℚ
  bbox : IBox
  safety : String
  color : Option (String × List (String × ℚ)) := none
deriving DecidableEq

/-- Modelled from the spec: `LimitVal` is defined in the missing
`modules/LensOpticCalculator.py`; the spec requires sampling coordinates
to be "clamped into valid bounds rather than erroring", so it clamps its
argument into `[0, bound)`. -/
def LimitVal (v bound : ℤ) : ℤ := max 0 (min v (bound - 1))

/-- Embedding of `SceneLocator.FindObjects` (SceneLocator.py, lines
12–71): when the reference anchor is absent the detection loop is skipped
entirely and the summary is empty; otherwise each kept box is enriched
with the sampled depth, the ratio-proportion metric distance (in meters),
a safety tier, and — for traffic lights — the color classification. -/
def FindObjects (target_object_depth_val : Option (ℚ × ℚ)) (boxes : List YoloBox)
    (class_names : List String) (targetClassId : Option ℕ) (dm : Depthmap)
    (img : HSVImage) (safetyOf : Option ℚ → String) : List SDet :=
  match target_object_depth_val with
  | none => []
  | some (reference_distance, reference_point) =>
    (boxes.filter fun b =>
        decide (¬ b.conf < 35 / 100) && decide (¬ targetClassId = some b.cls)).map fun b =>
      let x := b.x1
      let y := b.y1
      let w := b.x2 - b.x1
      let h := b.y2 - b.y1
      let xcoord := LimitVal (Int.ediv (x + (x + w)) 2) (img.cols : ℤ)
      let ycoord := LimitVal (Int.ediv (y + (y + h)) 2) (img.rows : ℤ)
      let object_depthmap_val := dm.val ycoord.toNat xcoord.toNat
      let output_face :=
        RatioProportionCalculator object_depthmap_val reference_distance reference_point
      let label := class_names.getD b.cls ""
      let color_info :=
        if pyLower label = "traffic light" then some (classify_light_color img ⟨x, y, w, h⟩)
        else none
      { label := label
        distance_m := output_face.map (· / 1000)
        midas_depth := object_depthmap_val
        bbox := ⟨x, y, w, h⟩
        safety := safetyOf (output_face.map (· / 1000))
        color := color_info }

theorem calculate_iou_eq (bbox1 bbox2 : BBox) :
    calculate_iou bbox1 bbox2 =
      if unionArea bbox1 bbox2 = 0 then 0
      else interArea bbox1 bbox2 / unionArea bbox1 bbox2 := rfl

theorem interArea_eq_zero_of_separated {bbox1 bbox2 : BBox}
    (h : Separated bbox1 bbox2) : interArea bbox1 bbox2 = 0 := by
  unfold interArea
  rcases h with h | h | h | h
  · have hx : min (bbox1.x + bbox1.w) (bbox2.x + bbox2.w) - max bbox1.x bbox2.x ≤ 0 := by
      have := min_le_left (bbox1.x + bbox1.w) (bbox2.x + bbox2.w)
      have := le_max_left bbox1.x bbox2.x
      have h2 : min (bbox1.x + bbox1.w) (bbox2.x + bbox2.w) ≤ max bbox1.x bbox2.x :=
        le_trans (min_le_left _ _) (le_trans h (le_max_right _ _))
      linarith
    rw [max_eq_left hx, zero_mul]
  · have h2 : min (bbox1.x + bbox1.w) (bbox2.x + bbox2.w) ≤ max bbox1.x bbox2.x :=
      le_trans (min_le_right _ _) (le_trans h (le_max_left _ _))
    have hx : min (bbox1.x + bbox1.w) (bbox2.x + bbox2.w) - max bbox1.x bbox2.x ≤ 0 := by
      linarith
    rw [max_eq_left hx, zero_mul]
  · have h2 : min (bbox1.y + bbox1.h) (bbox2.y + bbox2.h) ≤ max bbox1.y bbox2.y :=
      le_trans (min_le_left _ _) (le_trans h (le_max_right _ _))
    have hy : min (bbox1.y + bbox1.h) (bbox2.y + bbox2.h) - max bbox1.y bbox2.y ≤ 0 := by
      linarith
    rw [max_eq_left hy, mul_zero]
  · have h2 : min (bbox1.y + bbox1.h) (bbox2.y + bbox2.h) ≤ max bbox1.y bbox2.y :=
      le_trans (min_le_right _ _) (le_trans h (le_max_left _ _))
    have hy : min (bbox1.y + bbox1.h) (bbox2.y + bbox2.h) - max bbox1.y bbox2.y ≤ 0 := by
      linarith
    rw [max_eq_left hy, mul_zero]

theorem calculate_iou_self {bbox : BBox} (hw : 0 < bbox.w) (hh : 0 < bbox.h) :
    calculate_iou bbox bbox = 1 := by
  have hinter : interArea bbox bbox = bbox.w * bbox.h := by
    unfold interArea
    rw [min_self, max_self, min_self, max_self]
    have hw' : (0 : ℚ) ≤ bbox.x + bbox.w - bbox.x := by linarith
    have hh' : (0 : ℚ) ≤ bbox.y + bbox.h - bbox.y := by linarith
    rw [max_eq_right hw', max_eq_right hh']
    ring
  have huni : unionArea bbox bbox = bbox.w * bbox.h := by
    unfold unionArea; rw [hinter]; ring
  have hpos : bbox.w * bbox.h ≠ 0 := by positivity
  rw [calculate_iou_eq, huni, hinter, if_neg hpos, div_self hpos]

/-- **C9.** The bounding-box IOU used for identity matching equals
`intersection_area / union_area` with `0` returned when the union area is
`0`; identical boxes of positive area give `1`, separated (disjoint) boxes
give `0`, and two equal-size boxes overlapping in exactly half their area
give `1/3`. -/
theorem iou_spec :
    (∀ bbox1 bbox2 : BBox,
        calculate_iou bbox1 bbox2 =
          if unionArea bbox1 bbox2 = 0 then 0
          else interArea bbox1 bbox2 / unionArea bbox1 bbox2) ∧
    (∀ bbox : BBox, 0 < bbox.w → 0 < bbox.h → calculate_iou bbox bbox = 1) ∧
    (∀ bbox1 bbox2 : BBox, Separated bbox1 bbox2 → calculate_iou bbox1 bbox2 = 0) ∧
    (∀ x y w h : ℚ, 0 < w → 0 < h →
        calculate_iou ⟨x, y, w, h⟩ ⟨x + w / 2, y, w, h⟩ = 1 / 3) := by
  refine ⟨fun bbox1 bbox2 => rfl, fun bbox hw hh => calculate_iou_self hw hh, ?_, ?_⟩
  · intro bbox1 bbox2 hsep
    have hi := interArea_eq_zero_of_separated hsep
    rw [calculate_iou_eq]
    by_cases h0 : unionArea bbox1 bbox2 = 0
    · rw [if_pos h0]
    · rw [if_neg h0, hi, zero_div]
  · intro x y w h hw hh
    have hxi1 : max x (x + w / 2) = x + w / 2 := max_eq_right (by linarith)
    have hxi2 : min (x + w) (x + w / 2 + w) = x + w := min_eq_left (by linarith)
    have hinter : interArea ⟨x, y, w, h⟩ ⟨x + w / 2, y, w, h⟩ = w / 2 * h := by
      unfold interArea
      simp only
      rw [hxi1, hxi2, min_self, max_self]
      rw [max_eq_right (by linarith : (0:ℚ) ≤ x + w - (x + w / 2)),
        max_eq_right (by linarith : (0:ℚ) ≤ y + h - y)]
      ring
    have huni : unionArea ⟨x, y, w, h⟩ ⟨x + w / 2, y, w, h⟩ = 3 / 2 * (w * h) := by
      unfold unionArea
      rw [hinter]
      simp only
      ring
    have hpos : (3 : ℚ) / 2 * (w * h) ≠ 0 := by positivity
    rw [calculate_iou_eq, huni, hinter, if_neg hpos]
    field_simp
    ring

/-- Witness for `iou_spec` at concrete boxes: identical `10×10` boxes give
IOU `1`, boxes separated horizontally give `0`, and a half-overlapping pair
of `4×2` boxes gives `1/3`. -/
theorem iou_spec_witness :
    calculate_iou ⟨0, 0, 10, 10⟩ ⟨0, 0, 10, 10⟩ = 1 ∧
    calculate_iou ⟨0, 0, 10, 10⟩ ⟨20, 0, 5, 5⟩ = 0 ∧
    calculate_iou ⟨0, 0, 4, 2⟩ ⟨2, 0, 4, 2⟩ = 1 / 3 := by
  refine ⟨iou_spec.2.1 ⟨0, 0, 10, 10⟩ (by norm_num) (by norm_num), ?_, ?_⟩
  · exact iou_spec.2.2.1 ⟨0, 0, 10, 10⟩ ⟨20, 0, 5, 5⟩ (Or.inl (by norm_num))
  · have := iou_spec.2.2.2 0 0 4 2 (by norm_num) (by norm_num)
    norm_num at this ⊢
    convert this using 3

theorem gridDepths_length (dm : Depthmap) (bbox : IBox) :
    (gridDepths dm bbox).length = 9 := rfl

/-- **C8.** The `"grid"` strategy samples 9 points at relative offsets
`{0.25, 0.5, 0.75}` in both axes (clamped into the field), and returns the
mean of the sorted sample list with the two lowest and two highest values
trimmed; on 9 values with two extreme outliers on each side the result is
the mean of the middle 5 values. -/
theorem grid_sampling_spec :
    (∀ (dm : Depthmap) (bbox : IBox), (gridDepths dm bbox).length = 9) ∧
    (∀ (dm : Depthmap) (bbox : IBox),
      ∃ sorted : List ℚ, sorted.Sorted (· ≤ ·) ∧ (gridDepths dm bbox).Perm sorted ∧
        get_stable_depth dm bbox "grid" =
          .ok (listMean (((sorted.drop 2).dropLast).dropLast))) ∧
    get_stable_depth outlierField ⟨0, 0, 4, 4⟩ "grid" =
      .ok (listMean [10, 11, 12, 13, 14]) := by
  have key : ∀ (dm : Depthmap) (bbox : IBox),
      get_stable_depth dm bbox "grid" =
        .ok (listMean
          ((((List.insertionSort (· ≤ ·) (gridDepths dm bbox)).drop 2).dropLast).dropLast)) := by
    intro dm bbox
    have hlen : (List.insertionSort (· ≤ ·) (gridDepths dm bbox)).length = 9 := by
      rw [List.length_insertionSort, gridDepths_length]
    unfold get_stable_depth
    rw [if_neg (by decide), if_pos rfl]
    unfold gridDepth pyTrim
    rw [hlen]
    norm_num
  refine ⟨fun dm bbox => gridDepths_length dm bbox, ?_, ?_⟩
  · intro dm bbox
    exact ⟨List.insertionSort (· ≤ ·) (gridDepths dm bbox),
      List.sorted_insertionSort _ _, (List.perm_insertionSort _ _).symm, key dm bbox⟩
  · rw [key]
    have hd : gridDepths outlierField ⟨0, 0, 4, 4⟩ =
        [0, 1000, 10, 11, 12, 13, 14, 2000, 1] := by
      simp only [gridDepths, gridPoints, gridOffsets, clampBox, clampIdx, outlierField]
      norm_num
      decide
    rw [hd]
    have hs : List.insertionSort (· ≤ ·) ([0, 1000, 10, 11, 12, 13, 14, 2000, 1] : List ℚ) =
        [0, 1, 10, 11, 12, 13, 14, 1000, 2000] := by
      simp [List.insertionSort, List.orderedInsert]
      norm_num
    rw [hs]
    rfl

/-- **C7.** For nonzero `raw_depth` the scaling returns
`reference_distance_mm * reference_depth_value / raw_depth` (so
`50, 3000, 60 ↦ 3600`), and `raw_depth = 0` yields no distance rather than
a crash. -/
theorem ratio_proportion_spec :
    (∀ raw_depth reference_distance_mm reference_depth_value : ℚ, raw_depth ≠ 0 →
        RatioProportionCalculator raw_depth reference_distance_mm reference_depth_value =
          some (reference_distance_mm * reference_depth_value / raw_depth)) ∧
    RatioProportionCalculator 50 3000 60 = some 3600 ∧
    (∀ reference_distance_mm reference_depth_value : ℚ,
        RatioProportionCalculator 0 reference_distance_mm reference_depth_value = none) := by
  refine ⟨fun raw refd refp h => if_neg h, ?_, fun refd refp => if_pos rfl⟩
  rw [RatioProportionCalculator, if_neg (by norm_num : (50 : ℚ) ≠ 0)]
  norm_num

/-- Witness for `ratio_proportion_spec`: its universally quantified parts
applied at concrete inputs. -/
theorem ratio_proportion_spec_witness :
    RatioProportionCalculator 50 3000 60 = some (3000 * 60 / 50) ∧
    RatioProportionCalculator 0 7 9 = none :=
  ⟨ratio_proportion_spec.1 50 3000 60 (by norm_num), ratio_proportion_spec.2.2 7 9⟩

/-- **C6.** `compensate_distance` returns the slant distance unchanged when
`|pitch| < 3°` (in particular at the vertical image center, where the pitch
is exactly `0`, for every object type) or when `|object_height −
camera_height| < 0.5 m`; otherwise it returns `w·g + (1−w)·v` with
`v = sqrt(max 0 (slant² − height_diff²))`, `w = min 1 (|pitch|/30°)`, and
`g` the clamped tangent estimate when `|pitch| > 5°`, the slant distance
otherwise. -/
theorem compensate_distance_spec :
    (∀ (c : CameraSetup) (slant y : ℝ) (t : String),
        |pixel_to_pitch_angle c y| < radiansOf 3 →
        compensate_distance c slant y t = slant) ∧
    (∀ (c : CameraSetup) (slant y : ℝ) (t : String),
        |get_object_height c t - c.camera_height| < 500 →
        compensate_distance c slant y t = slant) ∧
    (∀ (c : CameraSetup) (slant : ℝ) (t : String),
        pixel_to_pitch_angle c (c.image_height / 2) = 0 ∧
        compensate_distance c slant (c.image_height / 2) t = slant) ∧
    (∀ (c : CameraSetup) (slant y : ℝ) (t : String),
        ¬ |pixel_to_pitch_angle c y| < radiansOf 3 →
        ¬ |get_object_height c t - c.camera_height| < 500 →
        compensate_distance c slant y t =
          min 1 (|pixel_to_pitch_angle c y| / radiansOf 30) *
              (if radiansOf 5 < |pixel_to_pitch_angle c y| then
                npClip |(get_object_height c t - c.camera_height) / Real.tan (pixel_to_pitch_angle c y)|
                  (slant * 0.5) (slant * 2.0)
              else slant) +
            (1 - min 1 (|pixel_to_pitch_angle c y| / radiansOf 30)) *
              Real.sqrt (max 0 (slant ^ 2 - (get_object_height c t - c.camera_height) ^ 2))) := by
  have hzero : ∀ c : CameraSetup, pixel_to_pitch_angle c (c.image_height / 2) = 0 := by
    intro c
    unfold pixel_to_pitch_angle
    rw [sub_self, zero_mul]
  have hpitch : ∀ (c : CameraSetup) (slant y : ℝ) (t : String),
      |pixel_to_pitch_angle c y| < radiansOf 3 → compensate_distance c slant y t = slant := by
    intro c slant y t h
    unfold compensate_distance
    rw [if_pos h]
  refine ⟨hpitch, ?_, ?_, ?_⟩
  · intro c slant y t h
    unfold compensate_distance
    by_cases hp : |pixel_to_pitch_angle c y| < radiansOf 3
    · rw [if_pos hp]
    · rw [if_neg hp, if_pos h]
  · intro c slant t
    refine ⟨hzero c, hpitch c slant _ t ?_⟩
    rw [hzero c, abs_zero]
    unfold radiansOf
    positivity
  · intro c slant y t h1 h2
    unfold compensate_distance
    rw [if_neg h1, if_neg h2]

/-- Witness for `compensate_distance_spec`: a 720-pixel camera with the
object at the vertical image center keeps a 1000 mm slant distance
unchanged (traffic light, pitch `0`), and a person (height 1700 mm vs
camera 1500 mm, `|Δh| < 500`) keeps it unchanged at any pixel row. -/
theorem compensate_distance_spec_witness :
    compensate_distance ⟨720, 1500, 1⟩ 1000 360 "traffic light" = 1000 ∧
    compensate_distance ⟨720, 1500, 1⟩ 1000 100 "person" = 1000 := by
  constructor
  · apply compensate_distance_spec.1
    have : pixel_to_pitch_angle ⟨720, 1500, 1⟩ 360 = 0 := by
      unfold pixel_to_pitch_angle
      norm_num
    rw [this, abs_zero]
    unfold radiansOf
    positivity
  · apply compensate_distance_spec.2.1
    have : get_object_height ⟨720, 1500, 1⟩ "person" = 1700 := by
      unfold get_object_height OBJECT_HEIGHTS
      have hl : List.lookup (pyLower "person")
          [("traffic light", (5000:ℝ)), ("street sign", 4000), ("stop sign", 2500),
            ("person", 1700), ("car", 1500), ("truck", 3000), ("bus", 3500),
            ("bicycle", 1100), ("motorcycle", 1200)] = some 1700 := by
        have : pyLower "person" = "person" := by decide
        rw [this]
        rfl
      rw [hl]
      rfl
    rw [this]
    norm_num

theorem mem_upsert {k : ObjId} {v : TrackedObj} :
    ∀ {l : List (ObjId × TrackedObj)} {p : ObjId × TrackedObj},
      p ∈ upsert k v l → p = (k, v) ∨ p ∈ l := by
  intro l
  induction l with
  | nil => intro p hp; simpa [upsert] using hp
  | cons hd t ih =>
    intro p hp
    rw [upsert] at hp
    by_cases hk : hd.1 = k
    · rw [if_pos hk] at hp
      rcases List.mem_cons.mp hp with h | h
      · exact Or.inl h
      · exact Or.inr (List.mem_cons_of_mem _ h)
    · rw [if_neg hk] at hp
      rcases List.mem_cons.mp hp with h | h
      · exact Or.inr (h ▸ List.mem_cons_self _ _)
      · rcases ih h with h' | h'
        · exact Or.inl h'
        · exact Or.inr (List.mem_cons_of_mem _ h')

theorem trackLoop_frame_stamp (prio : ℕ) (atype : String) (idLabel : Det → String)
    (img_width : ℚ) (fc : ℕ) (tracked : List (ObjId × TrackedObj)) :
    ∀ (dets : List Det) (current : List (ObjId × TrackedObj)),
      (∀ p ∈ current, p.2.frame = fc) →
      ∀ p ∈ (trackLoop prio atype idLabel img_width fc tracked dets current).2,
        p.2.frame = fc := by
  intro dets
  induction dets with
  | nil => intro current hc p hp; rw [trackLoop] at hp; exact hc p hp
  | cons d rest ih =>
    intro current hc p hp
    rw [trackLoop] at hp
    have hup : ∀ (k : ObjId) (q : ObjId × TrackedObj),
        q ∈ upsert k ⟨d.bbox, d.distance_m, fc⟩ current → q.2.frame = fc := by
      intro k q hq
      rcases mem_upsert hq with h | h
      · rw [h]
      · exact hc q h
    cases hfm : findMatch d.bbox tracked with
    | some m =>
      rcases m with ⟨matched_id, tr⟩
      rw [hfm] at hp
      dsimp only at hp
      by_cases hd : |d.distance_m - tr.distance| > 1 / 2
      · rw [if_pos hd] at hp
        exact ih _ (hup matched_id) p hp
      · rw [if_neg hd] at hp
        exact ih _ (hup matched_id) p hp
    | none =>
      rw [hfm] at hp
      dsimp only at hp
      exact ih _ (hup _) p hp

theorem check_cars_frame_stamp (st : AnalyzerState) (dets : List Det) (w : ℚ) :
    ∀ p ∈ (check_cars st dets w).2.last_reported_cars, p.2.frame = st.frame_counter := by
  intro p hp
  exact trackLoop_frame_stamp 2 "vehicle" Det.label w st.frame_counter
    st.last_reported_cars _ [] (by intro q hq; cases hq) p hp

theorem check_persons_frame_stamp (st : AnalyzerState) (dets : List Det) (w : ℚ) :
    ∀ p ∈ (check_persons st dets w).2.last_reported_persons, p.2.frame = st.frame_counter := by
  intro p hp
  exact trackLoop_frame_stamp 3 "person" (fun _ => "person") w st.frame_counter
    st.last_reported_persons _ [] (by intro q hq; cases hq) p hp

theorem cleanup_eq_self_of_current (st : AnalyzerState)
    (hc : ∀ p ∈ st.last_reported_cars, p.2.frame = st.frame_counter)
    (hp : ∀ p ∈ st.last_reported_persons, p.2.frame = st.frame_counter) :
    cleanup_expired_objects st = st := by
  unfold cleanup_expired_objects
  have h1 : (st.last_reported_cars.filter fun p =>
      decide ((st.frame_counter : ℤ) - (p.2.frame : ℤ) ≤ 720)) = st.last_reported_cars := by
    apply List.filter_eq_self.mpr
    intro p hpm
    rw [hc p hpm]
    simp
  have h2 : (st.last_reported_persons.filter fun p =>
      decide ((st.frame_counter : ℤ) - (p.2.frame : ℤ) ≤ 720)) = st.last_reported_persons := by
    apply List.filter_eq_self.mpr
    intro p hpm
    rw [hp p hpm]
    simp
  rw [h1, h2]

theorem check_traffic_lights_aux_state (fcl : Option (IBox → String))
    (st : AnalyzerState) (dets : List Det) :
    (check_traffic_lights fcl st dets).2.last_reported_cars = st.last_reported_cars ∧
    (check_traffic_lights fcl st dets).2.last_reported_persons = st.last_reported_persons ∧
    (check_traffic_lights fcl st dets).2.frame_counter = st.frame_counter := by
  cases h : (dets.filter fun d => isTrafficLightLabel d.label).map (tlEnrich fcl) with
  | nil =>
    simp only [check_traffic_lights, h]
    exact ⟨trivial, trivial, trivial⟩
  | cons d rest =>
    simp only [check_traffic_lights, h]
    refine ⟨?_, ?_, ?_⟩ <;> (repeat' split) <;> rfl

theorem check_cars_aux_state (st : AnalyzerState) (dets : List Det) (w : ℚ) :
    (check_cars st dets w).2.last_reported_persons = st.last_reported_persons ∧
    (check_cars st dets w).2.frame_counter = st.frame_counter := ⟨rfl, rfl⟩

theorem check_persons_aux_state (st : AnalyzerState) (dets : List Det) (w : ℚ) :
    (check_persons st dets w).2.last_reported_cars = st.last_reported_cars ∧
    (check_persons st dets w).2.frame_counter = st.frame_counter := ⟨rfl, rfl⟩

/-- **C2.** Each sub-logic overwrites its table with only the objects it
matched or created this frame, so after `analyze` every tracked entry
carries the current frame counter; consequently the cleanup step's
condition `current_frame - last_seen_frame > 720` holds for no entry and
the cleanup pass inside `analyze` removes nothing (the post-state equals
the state produced by the three sub-logics alone). -/
theorem tables_stamped_current_frame :
    (∀ (st : AnalyzerState) (dets : List Det) (w : ℚ),
        ∀ p ∈ (check_cars st dets w).2.last_reported_cars, p.2.frame = st.frame_counter) ∧
    (∀ (st : AnalyzerState) (dets : List Det) (w : ℚ),
        ∀ p ∈ (check_persons st dets w).2.last_reported_persons, p.2.frame = st.frame_counter) ∧
    (∀ st : AnalyzerState,
        (∀ p ∈ st.last_reported_cars, p.2.frame = st.frame_counter) →
        (∀ p ∈ st.last_reported_persons, p.2.frame = st.frame_counter) →
        cleanup_expired_objects st = st) ∧
    (∀ (fcl : Option (IBox → String)) (st : AnalyzerState) (dets : List Det) (w : ℚ),
        (∀ p ∈ (analyze fcl st dets w).2.last_reported_cars,
            p.2.frame = (analyze fcl st dets w).2.frame_counter) ∧
        (∀ p ∈ (analyze fcl st dets w).2.last_reported_persons,
            p.2.frame = (analyze fcl st dets w).2.frame_counter) ∧
        (analyze fcl st dets w).2 =
          (check_persons (check_cars (check_traffic_lights fcl
            { st with frame_counter := st.frame_counter + 1 } dets).2 dets w).2 dets w).2) := by
  refine ⟨check_cars_frame_stamp, check_persons_frame_stamp, cleanup_eq_self_of_current, ?_⟩
  intro fcl st dets w
  have h2 := check_traffic_lights_aux_state fcl
    { st with frame_counter := st.frame_counter + 1 } dets
  have h3 := check_cars_aux_state
    (check_traffic_lights fcl { st with frame_counter := st.frame_counter + 1 } dets).2 dets w
  have h4 := check_persons_aux_state
    (check_cars (check_traffic_lights fcl
      { st with frame_counter := st.frame_counter + 1 } dets).2 dets w).2 dets w
  have hcars4 : ∀ p ∈ (check_persons (check_cars (check_traffic_lights fcl
      { st with frame_counter := st.frame_counter + 1 } dets).2 dets w).2 dets w).2.last_reported_cars,
      p.2.frame = (check_persons (check_cars (check_traffic_lights fcl
      { st with frame_counter := st.frame_counter + 1 } dets).2 dets w).2 dets w).2.frame_counter := by
    intro p hp
    rw [h4.1] at hp
    rw [h4.2, h3.2]
    exact check_cars_frame_stamp _ dets w p hp
  have hpers4 : ∀ p ∈ (check_persons (check_cars (check_traffic_lights fcl
      { st with frame_counter := st.frame_counter + 1 } dets).2 dets w).2 dets w).2.last_reported_persons,
      p.2.frame = (check_persons (check_cars (check_traffic_lights fcl
      { st with frame_counter := st.frame_counter + 1 } dets).2 dets w).2 dets w).2.frame_counter := by
    intro p hp
    rw [h4.2]
    exact check_persons_frame_stamp _ dets w p hp
  have hclean : cleanup_expired_objects (check_persons (check_cars (check_traffic_lights fcl
      { st with frame_counter := st.frame_counter + 1 } dets).2 dets w).2 dets w).2 =
      (check_persons (check_cars (check_traffic_lights fcl
      { st with frame_counter := st.frame_counter + 1 } dets).2 dets w).2 dets w).2 :=
    cleanup_eq_self_of_current _ hcars4 hpers4
  have hana : (analyze fcl st dets w).2 =
      cleanup_expired_objects (check_persons (check_cars (check_traffic_lights fcl
        { st with frame_counter := st.frame_counter + 1 } dets).2 dets w).2 dets w).2 := rfl
  rw [hana, hclean]
  exact ⟨hcars4, hpers4, rfl⟩

/-- Witness for `tables_stamped_current_frame`: the cleanup conjunct
applied to a concrete state whose single tracked entry carries the current
frame counter. -/
theorem tables_stamped_current_frame_witness :
    cleanup_expired_objects
        { last_reported_cars := [(⟨"car", 0, 0, 5⟩, ⟨⟨0, 0, 10, 10⟩, 2, 5⟩)],
          frame_counter := 5 } =
      { last_reported_cars := [(⟨"car", 0, 0, 5⟩, ⟨⟨0, 0, 10, 10⟩, 2, 5⟩)],
        frame_counter := 5 } := by
  apply tables_stamped_current_frame.2.2.1
  · intro p hp
    rcases List.mem_singleton.mp hp with rfl
    rfl
  · intro p hp
    cases hp

/-- **C1 (code evaluation).** A tracked vehicle entry that matches no
close detection of the current frame is removed immediately when
`_check_cars` replaces the table: after one `analyze` call with no
detections the table is empty (even though `2 - 1 = 1 ≤ 720`), and when
the same bbox reappears on the following frame it is treated as brand-new
and alerted again. -/
theorem unmatched_entry_dropped_immediately :
    ((analyze none
        { last_reported_cars := [(⟨"car", 0, 0, 1⟩, ⟨⟨0, 0, 10, 10⟩, 2, 1⟩)],
          frame_counter := 1 } [] 640).2.last_reported_cars = []) ∧
    ((analyze none
        { last_reported_cars := [(⟨"car", 0, 0, 1⟩, ⟨⟨0, 0, 10, 10⟩, 2, 1⟩)],
          frame_counter := 1 } [] 640).2.frame_counter = 2) ∧
    (((analyze none
        (analyze none
          { last_reported_cars := [(⟨"car", 0, 0, 1⟩, ⟨⟨0, 0, 10, 10⟩, 2, 1⟩)],
            frame_counter := 1 } [] 640).2
        [{ label := "car", distance_m := 2, midas_depth := 100,
           bbox := ⟨0, 0, 10, 10⟩ }] 640).1.map Alert.priority) = [2]) := by
  refine ⟨rfl, rfl, ?_⟩
  rfl

theorem tlEnrich_none (d : Det) : tlEnrich none d = d := by
  unfold tlEnrich
  split <;> rfl

theorem ctl_cons_states (fcl : Option (IBox → String)) (st : AnalyzerState)
    (dets : List Det) (d : Det) (rest : List Det)
    (h : (dets.filter fun x => isTrafficLightLabel x.label).map (tlEnrich fcl) = d :: rest) :
    (check_traffic_lights fcl st dets).2.last_traffic_light_state =
      some (deriveTLState (pyLower (minByDistance d rest).label) (minByDistance d rest).color) ∧
    (check_traffic_lights fcl st dets).2.last_traffic_light_distance =
      some (minByDistance d rest).distance_m := by
  simp only [check_traffic_lights, h]
  exact ⟨by (repeat' split) <;> rfl, by (repeat' split) <;> rfl⟩

theorem ctl_cons_priority (fcl : Option (IBox → String)) (st : AnalyzerState)
    (dets : List Det) (d : Det) (rest : List Det)
    (h : (dets.filter fun x => isTrafficLightLabel x.label).map (tlEnrich fcl) = d :: rest) :
    ∀ a, (check_traffic_lights fcl st dets).1 = some a → a.priority = 1 := by
  simp only [check_traffic_lights, h]
  intro a ha
  repeat' split at ha
  all_goals
    first
      | (injection ha with h2
         exact h2 ▸ rfl)
      | (injection ha)

theorem ctl_cons_isSome (fcl : Option (IBox → String)) (st : AnalyzerState)
    (dets : List Det) (d : Det) (rest : List Det)
    (h : (dets.filter fun x => isTrafficLightLabel x.label).map (tlEnrich fcl) = d :: rest) :
    ((check_traffic_lights fcl st dets).1.isSome ↔
      (some (deriveTLState (pyLower (minByDistance d rest).label) (minByDistance d rest).color) ≠
          st.last_traffic_light_state ∨
        ((minByDistance d rest).distance_m < 3 ∧
          ∀ ld, st.last_traffic_light_distance = some ld →
            |(minByDistance d rest).distance_m - ld| > 1 / 2))) := by
  by_cases h1 : some (deriveTLState (pyLower (minByDistance d rest).label)
      (minByDistance d rest).color) ≠ st.last_traffic_light_state
  · simp only [check_traffic_lights, h]
    rw [if_pos h1]
    simp [h1]
  · by_cases h2 : (minByDistance d rest).distance_m < 3
    · cases hld : st.last_traffic_light_distance with
      | none =>
        simp only [check_traffic_lights, h, hld]
        rw [if_neg h1, if_pos h2]
        simp [h1, h2, hld]
      | some l =>
        simp only [check_traffic_lights, h, hld]
        rw [if_neg h1, if_pos h2]
        by_cases h3 : |(minByDistance d rest).distance_m - l| > 1 / 2
        · have h3' : (2 : ℚ)⁻¹ < |(minByDistance d rest).distance_m - l| := by
            rw [show ((1 : ℚ) / 2) = 2⁻¹ from one_div 2] at h3
            exact h3
          simp [h1, h2, hld, h3']
        · have h3' : ¬ (2 : ℚ)⁻¹ < |(minByDistance d rest).distance_m - l| := by
            rw [show ((1 : ℚ) / 2) = 2⁻¹ from one_div 2] at h3
            exact h3
          simp [h1, h2, hld, h3']
    · simp only [check_traffic_lights, h]
      rw [if_neg h1, if_neg h2]
      simp [h1, h2]

theorem ctl_nil (fcl : Option (IBox → String)) (st : AnalyzerState) (dets : List Det)
    (h : (dets.filter fun x => isTrafficLightLabel x.label).map (tlEnrich fcl) = []) :
    (check_traffic_lights fcl st dets).1 = none ∧
    (check_traffic_lights fcl st dets).2.last_traffic_light_state = none ∧
    (check_traffic_lights fcl st dets).2.last_traffic_light_distance = none := by
  simp [check_traffic_lights, h]

theorem rSignal_filter (q : ℚ) :
    (([rSignalDet q].filter fun x => isTrafficLightLabel x.label).map (tlEnrich none)) =
      [rSignalDet q] := by
  have hl : isTrafficLightLabel (rSignalDet q).label = true := by
    show isTrafficLightLabel "R_Signal" = true
    decide
  simp [List.filter, hl, tlEnrich_none]

theorem gSignal_filter (q : ℚ) :
    (([gSignalDet q].filter fun x => isTrafficLightLabel x.label).map (tlEnrich none)) =
      [gSignalDet q] := by
  have hl : isTrafficLightLabel (gSignalDet q).label = true := by
    show isTrafficLightLabel "G_Signal" = true
    decide
  simp [List.filter, hl, tlEnrich_none]

theorem rSignal_state (q : ℚ) :
    deriveTLState (pyLower (minByDistance (rSignalDet q) []).label)
      (minByDistance (rSignalDet q) []).color = .red := by
  show deriveTLState (pyLower "R_Signal") none = .red
  decide

theorem gSignal_state (q : ℚ) :
    deriveTLState (pyLower (minByDistance (gSignalDet q) []).label)
      (minByDistance (gSignalDet q) []).color = .green := by
  show deriveTLState (pyLower "G_Signal") none = .green
  decide

theorem tl_scenario_first_alert :
    (check_traffic_lights none {} [rSignalDet 2]).1.isSome := by
  refine (ctl_cons_isSome none {} [rSignalDet 2] (rSignalDet 2) [] (rSignal_filter 2)).mpr ?_
  exact Or.inl (by simp)

theorem tl_scenario_st1 :
    (check_traffic_lights none {} [rSignalDet 2]).2.last_traffic_light_state =
        some TLState.red ∧
    (check_traffic_lights none {} [rSignalDet 2]).2.last_traffic_light_distance = some 2 := by
  have h := ctl_cons_states none {} [rSignalDet 2] (rSignalDet 2) [] (rSignal_filter 2)
  rw [rSignal_state] at h
  exact ⟨h.1, h.2.trans rfl⟩

theorem tl_scenario_no_repeat :
    (check_traffic_lights none (check_traffic_lights none {} [rSignalDet 2]).2
      [rSignalDet (23 / 10)]).1 = none := by
  have hiff := ctl_cons_isSome none (check_traffic_lights none {} [rSignalDet 2]).2
    [rSignalDet (23 / 10)] (rSignalDet (23 / 10)) [] (rSignal_filter (23 / 10))
  rw [rSignal_state, tl_scenario_st1.1, tl_scenario_st1.2] at hiff
  have hnot : ¬ (some TLState.red ≠ some TLState.red ∨
      ((minByDistance (rSignalDet (23 / 10)) []).distance_m < 3 ∧
        ∀ ld, (some (2 : ℚ)) = some ld →
          |(minByDistance (rSignalDet (23 / 10)) []).distance_m - ld| > 1 / 2)) := by
    rintro (hc | ⟨hd, hall⟩)
    · exact hc rfl
    · have h2 := hall 2 rfl
      have : (minByDistance (rSignalDet (23 / 10)) []).distance_m = 23 / 10 := rfl
      rw [this] at h2
      rw [show |(23 : ℚ) / 10 - 2| = 3 / 10 by
        rw [show (23 : ℚ) / 10 - 2 = 3 / 10 by norm_num]
        exact abs_of_nonneg (by norm_num)] at h2
      norm_num at h2
  rcases ho : (check_traffic_lights none (check_traffic_lights none {} [rSignalDet 2]).2
      [rSignalDet (23 / 10)]).1 with _ | a
  · rfl
  · exact absurd (hiff.mp (by rw [ho]; rfl)) hnot

theorem tl_scenario_st2 :
    (check_traffic_lights none (check_traffic_lights none {} [rSignalDet 2]).2
      [rSignalDet (23 / 10)]).2.last_traffic_light_state = some TLState.red := by
  have h := ctl_cons_states none (check_traffic_lights none {} [rSignalDet 2]).2
    [rSignalDet (23 / 10)] (rSignalDet (23 / 10)) [] (rSignal_filter (23 / 10))
  rw [rSignal_state] at h
  exact h.1

theorem tl_scenario_green_alert (q : ℚ) :
    (check_traffic_lights none
      (check_traffic_lights none (check_traffic_lights none {} [rSignalDet 2]).2
        [rSignalDet (23 / 10)]).2 [gSignalDet q]).1.isSome := by
  refine (ctl_cons_isSome none _ [gSignalDet q] (gSignalDet q) [] (gSignal_filter q)).mpr ?_
  rw [gSignal_state, tl_scenario_st2]
  exact Or.inl (by simp)

/-- **C3.** On a call with at least one traffic-light detection, a
priority-1 alert is emitted iff the derived state differs from the stored
state, or the nearest light is closer than 3 m and there is no prior
reported distance or it changed by more than 0.5 m; state and distance are
persisted on every such call, and with no traffic-light detection the
stored state (and distance) is reset.  Concretely: red at 2.0 m then red
at 2.3 m emits no second alert, while a subsequent green emits an alert at
every distance. -/
theorem traffic_light_hysteresis :
    (∀ (fcl : Option (IBox → String)) (st : AnalyzerState) (dets : List Det)
        (d : Det) (rest : List Det),
        (dets.filter fun x => isTrafficLightLabel x.label).map (tlEnrich fcl) = d :: rest →
        ((check_traffic_lights fcl st dets).1.isSome ↔
          (some (deriveTLState (pyLower (minByDistance d rest).label)
              (minByDistance d rest).color) ≠ st.last_traffic_light_state ∨
            ((minByDistance d rest).distance_m < 3 ∧
              ∀ ld, st.last_traffic_light_distance = some ld →
                |(minByDistance d rest).distance_m - ld| > 1 / 2))) ∧
        (check_traffic_lights fcl st dets).2.last_traffic_light_state =
          some (deriveTLState (pyLower (minByDistance d rest).label)
            (minByDistance d rest).color) ∧
        (check_traffic_lights fcl st dets).2.last_traffic_light_distance =
          some (minByDistance d rest).distance_m ∧
        (∀ a, (check_traffic_lights fcl st dets).1 = some a → a.priority = 1)) ∧
    (∀ (fcl : Option (IBox → String)) (st : AnalyzerState) (dets : List Det),
        (dets.filter fun x => isTrafficLightLabel x.label).map (tlEnrich fcl) = [] →
        (check_traffic_lights fcl st dets).1 = none ∧
        (check_traffic_lights fcl st dets).2.last_traffic_light_state = none ∧
        (check_traffic_lights fcl st dets).2.last_traffic_light_distance = none) ∧
    (check_traffic_lights none {} [rSignalDet 2]).1.isSome ∧
    (check_traffic_lights none (check_traffic_lights none {} [rSignalDet 2]).2
      [rSignalDet (23 / 10)]).1 = none ∧
    (∀ q : ℚ, (check_traffic_lights none
      (check_traffic_lights none (check_traffic_lights none {} [rSignalDet 2]).2
        [rSignalDet (23 / 10)]).2 [gSignalDet q]).1.isSome) := by
  refine ⟨?_, ctl_nil, tl_scenario_first_alert, tl_scenario_no_repeat,
    tl_scenario_green_alert⟩
  intro fcl st dets d rest h
  exact ⟨ctl_cons_isSome fcl st dets d rest h, (ctl_cons_states fcl st dets d rest h).1,
    (ctl_cons_states fcl st dets d rest h).2, ctl_cons_priority fcl st dets d rest h⟩

/-- Witness for `traffic_light_hysteresis`: its quantified conjuncts
applied at concrete calls. -/
theorem traffic_light_hysteresis_witness :
    (check_traffic_lights none {} [rSignalDet 2]).2.last_traffic_light_state =
      some (deriveTLState (pyLower (minByDistance (rSignalDet 2) []).label)
        (minByDistance (rSignalDet 2) []).color) ∧
    (check_traffic_lights none {} ([] : List Det)).1 = none :=
  ⟨(traffic_light_hysteresis.1 none {} [rSignalDet 2] (rSignalDet 2) []
      (rSignal_filter 2)).2.1,
    (traffic_light_hysteresis.2.1 none {} [] rfl).1⟩

theorem findMatch_none_iff (bbox : IBox) (l : List (ObjId × TrackedObj)) :
    findMatch bbox l = none ↔
      ∀ p ∈ l, calculate_iou bbox.toQ p.2.bbox.toQ ≤ 3 / 10 := by
  induction l with
  | nil => simp [findMatch]
  | cons hd t ih =>
    rcases hd with ⟨tid, tr⟩
    rw [findMatch]
    by_cases hiou : calculate_iou bbox.toQ tr.bbox.toQ > 3 / 10
    · rw [if_pos hiou]
      refine iff_of_false (by simp) ?_
      intro hall
      exact not_le.mpr hiou (hall (tid, tr) (List.mem_cons_self _ _))
    · rw [if_neg hiou, ih]
      constructor
      · intro hall p hp
        rcases List.mem_cons.mp hp with rfl | hp'
        · exact le_of_not_lt hiou
        · exact hall p hp'
      · intro hall p hp
        exact hall p (List.mem_cons_of_mem _ hp)

theorem trackLoop_single_matched (prio : ℕ) (atype : String) (idLabel : Det → String)
    (img_width : ℚ) (fc : ℕ) (tracked : List (ObjId × TrackedObj)) (d : Det)
    (cur : List (ObjId × TrackedObj)) (matched_id : ObjId) (tr : TrackedObj)
    (hfm : findMatch d.bbox tracked = some (matched_id, tr)) :
    trackLoop prio atype idLabel img_width fc tracked [d] cur =
      ((if |d.distance_m - tr.distance| > 1 / 2 then
          [{ priority := prio, atype := atype, distance_m := d.distance_m,
             midas_depth_mm := d.midas_depth, label := some d.label,
             position := some (get_position_text d.bbox img_width) }]
        else []),
        upsert matched_id ⟨d.bbox, d.distance_m, fc⟩ cur) := by
  simp only [trackLoop, hfm]
  split <;> rfl

theorem trackLoop_single_new (prio : ℕ) (atype : String) (idLabel : Det → String)
    (img_width : ℚ) (fc : ℕ) (tracked : List (ObjId × TrackedObj)) (d : Det)
    (cur : List (ObjId × TrackedObj))
    (hfm : findMatch d.bbox tracked = none) :
    trackLoop prio atype idLabel img_width fc tracked [d] cur =
      ([{ priority := prio, atype := atype, distance_m := d.distance_m,
          midas_depth_mm := d.midas_depth, label := some d.label,
          position := some (get_position_text d.bbox img_width) }],
        upsert ⟨idLabel d, d.bbox.x, d.bbox.y, fc⟩ ⟨d.bbox, d.distance_m, fc⟩ cur) := by
  simp only [trackLoop, hfm]

theorem person_not_tl (q : ℚ) :
    (([personDet q].filter fun x => isTrafficLightLabel x.label).map (tlEnrich none)) = [] := by
  have h : isTrafficLightLabel (personDet q).label = false := by
    show isTrafficLightLabel "person" = false
    decide
  simp [List.filter, h]

theorem ctl_full_nil (fcl : Option (IBox → String)) (st : AnalyzerState) (dets : List Det)
    (h : (dets.filter fun x => isTrafficLightLabel x.label).map (tlEnrich fcl) = []) :
    check_traffic_lights fcl st dets =
      (none,
        { st with
            last_traffic_light_state := none,
            last_traffic_light_distance := none }) := by
  simp only [check_traffic_lights, h]

theorem person_carfilter_empty (q : ℚ) :
    ([personDet q].filter fun d =>
      vehicle_labels.contains (pyLower d.label) && decide (d.distance_m < 3)) = [] := by
  have h : ¬ (pyLower (personDet q).label ∈ vehicle_labels) := by
    show ¬ (pyLower "person" ∈ vehicle_labels)
    decide
  simp [List.filter, h]

theorem check_cars_empty (st : AnalyzerState) (dets : List Det) (w : ℚ)
    (h : (dets.filter fun d =>
      vehicle_labels.contains (pyLower d.label) && decide (d.distance_m < 3)) = []) :
    check_cars st dets w = ([], { st with last_reported_cars := [] }) := by
  simp only [check_cars, h]
  rfl

theorem person_filter_close (q : ℚ) (hq : q < 3) :
    ([personDet q].filter fun d =>
      pyLower d.label = "person" && decide (d.distance_m < 3)) = [personDet q] := by
  have h : pyLower (personDet q).label = "person" := by
    show pyLower "person" = "person"
    decide
  have hq' : (personDet q).distance_m < 3 := hq
  simp [List.filter, h, hq']

theorem person_findMatch (pid : ObjId) (δ : ℚ) (k : ℕ) :
    findMatch (personDet 0).bbox [(pid, ⟨⟨100, 100, 50, 100⟩, δ, k⟩)] =
      some (pid, ⟨⟨100, 100, 50, 100⟩, δ, k⟩) := by
  rw [findMatch]
  rw [if_pos]
  have h1 : calculate_iou (IBox.toQ ⟨100, 100, 50, 100⟩) (IBox.toQ ⟨100, 100, 50, 100⟩) = 1 := by
    apply calculate_iou_self
    · show (0 : ℚ) < 50
      norm_num
    · show (0 : ℚ) < 100
      norm_num
  show calculate_iou (IBox.toQ ⟨100, 100, 50, 100⟩) (IBox.toQ ⟨100, 100, 50, 100⟩) > 3 / 10
  rw [h1]
  norm_num

theorem person_position : get_position_text ⟨100, 100, 50, 100⟩ 640 = .left := by
  unfold get_position_text
  rw [if_pos]
  show ((⟨100, 100, 50, 100⟩ : IBox).x : ℚ) + ((⟨100, 100, 50, 100⟩ : IBox).w : ℚ) / 2 <
    (640 : ℚ) / 3
  push_cast
  norm_num

theorem person_frame_first (q : ℚ) (hq : q < 3) :
    analyze none {} [personDet q] 640 =
      ([{ priority := 3, atype := "person", distance_m := q, midas_depth_mm := 300,
          label := some "person", position := some .left }],
        { last_reported_persons := [(⟨"person", 100, 100, 1⟩, ⟨⟨100, 100, 50, 100⟩, q, 1⟩)],
          frame_counter := 1 }) := by
  simp only [analyze]
  rw [ctl_full_nil none _ [personDet q] (person_not_tl q)]
  rw [check_cars_empty _ _ _ (person_carfilter_empty q)]
  simp only [check_persons]
  rw [person_filter_close q hq]
  rw [trackLoop_single_new 3 "person" (fun _ => "person") 640 _ [] (personDet q) [] rfl]
  simp [cleanup_expired_objects, upsert, person_position, personDet]

theorem person_frame_next (k : ℕ) (pid : ObjId) (δ q : ℚ) (hq : q < 3) :
    analyze none
      { last_reported_persons := [(pid, ⟨⟨100, 100, 50, 100⟩, δ, k⟩)], frame_counter := k }
      [personDet q] 640 =
      ((if |q - δ| > 1 / 2 then
          [{ priority := 3, atype := "person", distance_m := q, midas_depth_mm := 300,
             label := some "person", position := some .left }]
        else []),
        { last_reported_persons := [(pid, ⟨⟨100, 100, 50, 100⟩, q, k + 1⟩)],
          frame_counter := k + 1 }) := by
  simp only [analyze]
  rw [ctl_full_nil none _ [personDet q] (person_not_tl q)]
  rw [check_cars_empty _ _ _ (person_carfilter_empty q)]
  simp only [check_persons]
  rw [person_filter_close q hq]
  rw [trackLoop_single_matched 3 "person" (fun _ => "person") 640 _ _ (personDet q) []
    pid ⟨⟨100, 100, 50, 100⟩, δ, k⟩ (person_findMatch pid δ k)]
  have hcl : ∀ m : ℕ, ((m : ℤ) - (m : ℤ) ≤ 720) := by
    intro m
    omega
  simp only [personDet]
  split <;> simp [cleanup_expired_objects, upsert, person_position, personDet, hcl]

theorem person_frame_next_same (k : ℕ) (pid : ObjId) :
    analyze none
      { last_reported_persons := [(pid, ⟨⟨100, 100, 50, 100⟩, 2, k⟩)], frame_counter := k }
      [personDet 2] 640 =
      ([], { last_reported_persons := [(pid, ⟨⟨100, 100, 50, 100⟩, 2, k + 1⟩)],
             frame_counter := k + 1 }) := by
  have h := person_frame_next k pid 2 2 (by norm_num)
  rw [if_neg (by norm_num : ¬ |(2 : ℚ) - 2| > 1 / 2)] at h
  exact h

theorem person_frame_closer (k : ℕ) (pid : ObjId) :
    analyze none
      { last_reported_persons := [(pid, ⟨⟨100, 100, 50, 100⟩, 2, k⟩)], frame_counter := k }
      [personDet (13 / 10)] 640 =
      ([{ priority := 3, atype := "person", distance_m := 13 / 10, midas_depth_mm := 300,
          label := some "person", position := some .left }],
        { last_reported_persons := [(pid, ⟨⟨100, 100, 50, 100⟩, 13 / 10, k + 1⟩)],
          frame_counter := k + 1 }) := by
  have h := person_frame_next k pid 2 (13 / 10) (by norm_num)
  rw [if_pos] at h
  · exact h
  · rw [show |(13 : ℚ) / 10 - 2| = 7 / 10 by
      rw [show (13 : ℚ) / 10 - 2 = -(7 / 10) by norm_num, abs_neg]
      exact abs_of_nonneg (by norm_num)]
    norm_num

theorem person_scenario_five :
    (analyzeSeq {} [[personDet 2], [personDet 2], [personDet 2], [personDet 2],
      [personDet 2]]).1.map List.length = [1, 0, 0, 0, 0] := by
  simp only [analyzeSeq, person_frame_first 2 (by norm_num), person_frame_next_same]
  rfl

theorem person_scenario_six :
    (analyzeSeq {} [[personDet 2], [personDet 2], [personDet 2], [personDet 2],
      [personDet 2], [personDet (13 / 10)]]).1.map List.length = [1, 0, 0, 0, 0, 1] := by
  simp only [analyzeSeq, person_frame_first 2 (by norm_num), person_frame_next_same,
    person_frame_closer]
  rfl

/-- **C4.** In the shared vehicle/pedestrian loop, a close detection that
matches a tracked entry (first IOU above `0.3`, in insertion order) emits
an alert iff its distance moved by more than `0.5 m` from that entry's
stored distance, and the entry is refreshed (bbox, distance, last-seen
frame) either way; with no entry above the IOU threshold a new identity is
created and an alert is emitted immediately.  Concretely, the same
pedestrian bbox at `2.0 m` over 5 consecutive frames yields exactly one
alert, and a move to `1.3 m` on frame 6 yields a second. -/
theorem person_tracking_spec :
    (∀ (prio : ℕ) (atype : String) (idLabel : Det → String) (img_width : ℚ) (fc : ℕ)
        (tracked cur : List (ObjId × TrackedObj)) (d : Det) (matched_id : ObjId)
        (tr : TrackedObj),
        findMatch d.bbox tracked = some (matched_id, tr) →
        trackLoop prio atype idLabel img_width fc tracked [d] cur =
          ((if |d.distance_m - tr.distance| > 1 / 2 then
              [{ priority := prio, atype := atype, distance_m := d.distance_m,
                 midas_depth_mm := d.midas_depth, label := some d.label,
                 position := some (get_position_text d.bbox img_width) }]
            else []),
            upsert matched_id ⟨d.bbox, d.distance_m, fc⟩ cur)) ∧
    (∀ (prio : ℕ) (atype : String) (idLabel : Det → String) (img_width : ℚ) (fc : ℕ)
        (tracked cur : List (ObjId × TrackedObj)) (d : Det),
        findMatch d.bbox tracked = none →
        trackLoop prio atype idLabel img_width fc tracked [d] cur =
          ([{ priority := prio, atype := atype, distance_m := d.distance_m,
              midas_depth_mm := d.midas_depth, label := some d.label,
              position := some (get_position_text d.bbox img_width) }],
            upsert ⟨idLabel d, d.bbox.x, d.bbox.y, fc⟩ ⟨d.bbox, d.distance_m, fc⟩ cur)) ∧
    (∀ (bbox : IBox) (l : List (ObjId × TrackedObj)),
        findMatch bbox l = none ↔
          ∀ p ∈ l, calculate_iou bbox.toQ p.2.bbox.toQ ≤ 3 / 10) ∧
    (analyzeSeq {} [[personDet 2], [personDet 2], [personDet 2], [personDet 2],
      [personDet 2]]).1.map List.length = [1, 0, 0, 0, 0] ∧
    (analyzeSeq {} [[personDet 2], [personDet 2], [personDet 2], [personDet 2],
      [personDet 2], [personDet (13 / 10)]]).1.map List.length = [1, 0, 0, 0, 0, 1] :=
  ⟨fun prio atype idLabel img_width fc tracked cur d matched_id tr hfm =>
      trackLoop_single_matched prio atype idLabel img_width fc tracked d cur
        matched_id tr hfm,
    fun prio atype idLabel img_width fc tracked cur d hfm =>
      trackLoop_single_new prio atype idLabel img_width fc tracked d cur hfm,
    findMatch_none_iff, person_scenario_five, person_scenario_six⟩

/-- Witness for `person_tracking_spec`: the matched and unmatched branches
applied to concrete single-entry tables. -/
theorem person_tracking_spec_witness :
    trackLoop 3 "person" (fun _ => "person") 640 7
        [(⟨"person", 100, 100, 1⟩, ⟨⟨100, 100, 50, 100⟩, 2, 6⟩)] [personDet 2] [] =
      ([], upsert ⟨"person", 100, 100, 1⟩ ⟨⟨100, 100, 50, 100⟩, 2, 7⟩ []) ∧
    trackLoop 3 "person" (fun _ => "person") 640 1 [] [personDet 2] [] =
      ([{ priority := 3, atype := "person", distance_m := 2, midas_depth_mm := 300,
          label := some "person",
          position := some (get_position_text (personDet 2).bbox 640) }],
        upsert ⟨"person", 100, 100, 1⟩ ⟨⟨100, 100, 50, 100⟩, 2, 1⟩ []) := by
  constructor
  · have h := person_tracking_spec.1 3 "person" (fun _ => "person") 640 7
      [(⟨"person", 100, 100, 1⟩, ⟨⟨100, 100, 50, 100⟩, 2, 6⟩)] [] (personDet 2)
      ⟨"person", 100, 100, 1⟩ ⟨⟨100, 100, 50, 100⟩, 2, 6⟩ (person_findMatch _ 2 6)
    simp only [personDet] at h
    rw [if_neg (by norm_num : ¬ |(2 : ℚ) - 2| > 1 / 2)] at h
    exact h
  · exact person_tracking_spec.2.1 3 "person" (fun _ => "person") 640 1 [] []
      (personDet 2) rfl

/-- **C5 (counterexample).** With the reference anchor absent and a
high-confidence detector box present, `FindObjects` returns an empty
summary: no detection carrying the raw sampled depth (and lacking
`distance_m`) is produced, contrary to the claim. -/
theorem findObjects_no_anchor_counterexample :
    FindObjects none [⟨1, 0, 0, 0, 10, 10⟩] ["person"] none
        ⟨10, 10, fun _ _ => 60⟩ ⟨10, 10, fun _ _ => (0, 0, 0)⟩ (fun _ => "Safe") = [] ∧
    ¬ ∃ d ∈ FindObjects none [⟨1, 0, 0, 0, 10, 10⟩] ["person"] none
        ⟨10, 10, fun _ _ => 60⟩ ⟨10, 10, fun _ _ => (0, 0, 0)⟩ (fun _ => "Safe"),
      d.distance_m = none ∧ d.midas_depth = 60 := by
  refine ⟨rfl, ?_⟩
  rintro ⟨d, hd, -⟩
  simp [FindObjects] at hd

/-- **C5 (amended).** When the reference anchor is absent, `FindObjects`
skips the detection loop entirely and returns an empty summary (all
metric-distance computation is skipped because no detections are produced
at all), and the alert pipeline completes without failure on the empty
summary: `analyze` returns an empty alert list. -/
theorem findObjects_no_anchor_spec :
    (∀ (boxes : List YoloBox) (class_names : List String) (targetClassId : Option ℕ)
        (dm : Depthmap) (img : HSVImage) (safetyOf : Option ℚ → String),
        FindObjects none boxes class_names targetClassId dm img safetyOf = []) ∧
    (∀ (st : AnalyzerState) (w : ℚ), (analyze none st [] w).1 = []) :=
  ⟨fun _ _ _ _ _ _ => rfl, fun _ _ => rfl⟩

theorem pyMax3 (pr pg pw : ℚ) :
    pyMaxSnd [("red", pr), ("green", pg), ("white", pw)] ∈
      (["red", "green", "white"] : List String) ∧
    (([("red", pr), ("green", pg), ("white", pw)] : List (String × ℚ)).lookup
        (pyMaxSnd [("red", pr), ("green", pg), ("white", pw)])).getD 0 =
      max pr (max pg pw) := by
  by_cases h1 : pg > pr
  · by_cases h2 : pw > pg
    · have he : pyMaxSnd [("red", pr), ("green", pg), ("white", pw)] = "white" := by
        simp [pyMaxSnd, h1, h2]
      rw [he, max_eq_right (le_of_lt h2), max_eq_right (le_of_lt (lt_trans h1 h2))]
      exact ⟨by simp, rfl⟩
    · have he : pyMaxSnd [("red", pr), ("green", pg), ("white", pw)] = "green" := by
        simp [pyMaxSnd, h1, h2]
      rw [he, max_eq_left (not_lt.mp h2), max_eq_right (le_of_lt h1)]
      exact ⟨by simp, rfl⟩
  · by_cases h2 : pw > pr
    · have he : pyMaxSnd [("red", pr), ("green", pg), ("white", pw)] = "white" := by
        simp [pyMaxSnd, h1, h2]
      rw [he, max_eq_right (le_of_lt (lt_of_le_of_lt (not_lt.mp h1) h2)),
        max_eq_right (le_of_lt h2)]
      exact ⟨by simp, rfl⟩
    · have he : pyMaxSnd [("red", pr), ("green", pg), ("white", pw)] = "red" := by
        simp [pyMaxSnd, h1, h2]
      rw [he, max_eq_left (max_le (not_lt.mp h1) (not_lt.mp h2))]
      exact ⟨by simp, rfl⟩

theorem safe_crop_none_iff (img : HSVImage) (bbox : IBox) :
    safe_crop img bbox = none ↔
      (min ((img.cols : ℤ)) (bbox.x + bbox.w) ≤ max 0 bbox.x ∨
        min ((img.rows : ℤ)) (bbox.y + bbox.h) ≤ max 0 bbox.y) := by
  unfold safe_crop
  by_cases hc : max 0 bbox.x ≥ min ((img.cols : ℤ)) (bbox.x + bbox.w) ∨
      max 0 bbox.y ≥ min ((img.rows : ℤ)) (bbox.y + bbox.h)
  · rw [if_pos hc]
    exact iff_of_true rfl hc
  · rw [if_neg hc]
    exact iff_of_false (by simp) hc

theorem mem_cropCoords {x1 y1 x2 y2 : ℤ} {c : ℤ × ℤ} (h : c ∈ cropCoords x1 y1 x2 y2) :
    x1 ≤ c.1 ∧ c.1 < x1 + ((x2 - x1).toNat : ℤ) ∧
      y1 ≤ c.2 ∧ c.2 < y1 + ((y2 - y1).toNat : ℤ) := by
  unfold cropCoords at h
  rw [List.mem_flatMap] at h
  obtain ⟨r, hr, h2⟩ := h
  rw [List.mem_map] at h2
  obtain ⟨c', hc', rfl⟩ := h2
  rw [List.mem_range] at hr hc'
  refine ⟨?_, ?_, ?_, ?_⟩ <;> simp <;> omega

theorem cropCoords_in_bounds (img : HSVImage) (bbox : IBox) (x1 y1 x2 y2 : ℤ)
    (h : safe_crop img bbox = some (x1, y1, x2, y2)) :
    ∀ c ∈ cropCoords x1 y1 x2 y2,
      0 ≤ c.1 ∧ c.1 < (img.cols : ℤ) ∧ 0 ≤ c.2 ∧ c.2 < (img.rows : ℤ) := by
  unfold safe_crop at h
  by_cases hc : max 0 bbox.x ≥ min ((img.cols : ℤ)) (bbox.x + bbox.w) ∨
      max 0 bbox.y ≥ min ((img.rows : ℤ)) (bbox.y + bbox.h)
  · rw [if_pos hc] at h
    cases h
  · rw [if_neg hc] at h
    injection h with h2
    rw [Prod.mk.injEq, Prod.mk.injEq, Prod.mk.injEq] at h2
    obtain ⟨hx1, hy1, hx2, hy2⟩ := h2
    push_neg at hc
    obtain ⟨hcx, hcy⟩ := hc
    intro c hcmem
    have hb := mem_cropCoords hcmem
    subst hx1
    subst hy1
    subst hx2
    subst hy2
    refine ⟨?_, ?_, ?_, ?_⟩ <;> omega

theorem classify_crop_some (img : HSVImage) (bbox : IBox) (x1 y1 x2 y2 : ℤ)
    (h : safe_crop img bbox = some (x1, y1, x2, y2))
    (hx : x1 < x2) (hy : y1 < y2) :
    classify_light_color img bbox =
      (let total : ℚ := (((y2 - y1).toNat * (x2 - x1).toNat : ℕ) : ℚ)
       let pr := (maskCount img (cropCoords x1 y1 x2 y2) redMask : ℚ) / total * 100
       let pg := (maskCount img (cropCoords x1 y1 x2 y2) greenMask : ℚ) / total * 100
       let pw := (maskCount img (cropCoords x1 y1 x2 y2) whiteMask : ℚ) / total * 100
       ((if max pr (max pg pw) < 5 then "unknown"
         else pyMaxSnd [("red", pr), ("green", pg), ("white", pw)]),
        [("red", pr), ("green", pg), ("white", pw)])) := by
  have htot : (((y2 - y1).toNat * (x2 - x1).toNat : ℕ) : ℚ) ≠ 0 := by
    have h1 : (y2 - y1).toNat ≠ 0 := by omega
    have h2 : (x2 - x1).toNat ≠ 0 := by omega
    exact_mod_cast Nat.mul_ne_zero h1 h2
  simp only [classify_light_color, h]
  rw [if_neg htot]
  have hm := pyMax3
    ((maskCount img (cropCoords x1 y1 x2 y2) redMask : ℚ) /
      (((y2 - y1).toNat * (x2 - x1).toNat : ℕ) : ℚ) * 100)
    ((maskCount img (cropCoords x1 y1 x2 y2) greenMask : ℚ) /
      (((y2 - y1).toNat * (x2 - x1).toNat : ℕ) : ℚ) * 100)
    ((maskCount img (cropCoords x1 y1 x2 y2) whiteMask : ℚ) /
      (((y2 - y1).toNat * (x2 - x1).toNat : ℕ) : ℚ) * 100)
  rw [hm.2]

/-- **C10.** `classify_light_color` is total: an empty or out-of-bounds
crop (the `safe_crop` guard) yields `("unknown", [])`; otherwise every
accessed pixel coordinate lies inside the image, each color percentage is
`mask count / total crop pixels × 100`, and the dominant color is the
argmax of the red/green/white percentages, demoted to `"unknown"` when
that maximum is below the `5%` confidence floor. -/
theorem classify_light_color_spec :
    (∀ (img : HSVImage) (bbox : IBox), safe_crop img bbox = none →
        classify_light_color img bbox = ("unknown", [])) ∧
    (∀ (img : HSVImage) (bbox : IBox),
        safe_crop img bbox = none ↔
          (min ((img.cols : ℤ)) (bbox.x + bbox.w) ≤ max 0 bbox.x ∨
            min ((img.rows : ℤ)) (bbox.y + bbox.h) ≤ max 0 bbox.y)) ∧
    (∀ (img : HSVImage) (bbox : IBox) (x1 y1 x2 y2 : ℤ),
        safe_crop img bbox = some (x1, y1, x2, y2) →
        ∀ c ∈ cropCoords x1 y1 x2 y2,
          0 ≤ c.1 ∧ c.1 < (img.cols : ℤ) ∧ 0 ≤ c.2 ∧ c.2 < (img.rows : ℤ)) ∧
    (∀ (img : HSVImage) (bbox : IBox) (x1 y1 x2 y2 : ℤ),
        safe_crop img bbox = some (x1, y1, x2, y2) → x1 < x2 → y1 < y2 →
        classify_light_color img bbox =
          (let total : ℚ := (((y2 - y1).toNat * (x2 - x1).toNat : ℕ) : ℚ)
           let pr := (maskCount img (cropCoords x1 y1 x2 y2) redMask : ℚ) / total * 100
           let pg := (maskCount img (cropCoords x1 y1 x2 y2) greenMask : ℚ) / total * 100
           let pw := (maskCount img (cropCoords x1 y1 x2 y2) whiteMask : ℚ) / total * 100
           ((if max pr (max pg pw) < 5 then "unknown"
             else pyMaxSnd [("red", pr), ("green", pg), ("white", pw)]),
            [("red", pr), ("green", pg), ("white", pw)]))) ∧
    (∀ pr pg pw : ℚ,
        pyMaxSnd [("red", pr), ("green", pg), ("white", pw)] ∈
          (["red", "green", "white"] : List String) ∧
        (([("red", pr), ("green", pg), ("white", pw)] : List (String × ℚ)).lookup
            (pyMaxSnd [("red", pr), ("green", pg), ("white", pw)])).getD 0 =
          max pr (max pg pw)) := by
  refine ⟨?_, safe_crop_none_iff, cropCoords_in_bounds, classify_crop_some, pyMax3⟩
  intro img bbox h
  simp only [classify_light_color, h]

/-- Witness for `classify_light_color_spec`: a fully out-of-bounds crop on
a `4×4` image yields `("unknown", [])`, and a `1×1` in-bounds crop of a
saturated red pixel has `100%` red and dominant `"red"`. -/
theorem classify_light_color_spec_witness :
    classify_light_color ⟨4, 4, fun _ _ => (0, 255, 255)⟩ ⟨10, 10, 2, 2⟩ = ("unknown", []) ∧
    classify_light_color ⟨4, 4, fun _ _ => (0, 255, 255)⟩ ⟨0, 0, 1, 1⟩ =
      ("red", [("red", 100), ("green", 0), ("white", 0)]) := by
  constructor
  · exact classify_light_color_spec.1 ⟨4, 4, fun _ _ => (0, 255, 255)⟩ ⟨10, 10, 2, 2⟩
      (by decide)
  · have h := classify_light_color_spec.2.2.2.1 ⟨4, 4, fun _ _ => (0, 255, 255)⟩
      ⟨0, 0, 1, 1⟩ 0 0 1 1 (by decide) (by decide) (by decide)
    rw [h]
    norm_num [maskCount, cropCoords, redMask, greenMask, whiteMask, inRangeHSV,
      List.filter, pyMaxSnd]

end CIS581
